import Mathlib

/-!
Verification development for the DoH_Proxy repository (Go).

Shallow embedding of the core data model and operations:
the JSON-to-RR reconstructor (src/utils.go constructResource,
src/client.go constructResponseMessage), the upstream client
(src/server.go DoH and DNS), the resolve loops (src/client.go
Client.Resolve and src/server.go Server.Resolve), and the listener
job construction (src/client.go runListener).

Go machine integers are modelled as Nat or Int with explicit
reductions modulo two to the word width.  The dynamically typed
JSON response map is modelled structurally, assuming the type
assertions performed by the Go code succeed (all claims quantify
over well-shaped maps).  Results of Go functions returning
(value, error) pairs are modelled with an explicit result type that
also distinguishes runtime panics (out-of-range slice indexing) and
process-terminating log.Fatal calls.
-/

namespace DoHProxy

/-- Empty string constant (used as the default of list lookups whose
indices are guarded so the default is never observable). -/
def blank : String := ""

/-- Error text modelling strconv syntax errors (Go strconv.ErrSyntax,
wrapped by Atoi and Unquote failures). -/
def errSyntax : String := "invalid syntax"

/-- Error text modelling strconv range errors (Go strconv.ErrRange). -/
def errRange : String := "value out of range"

/-- Error text of the unsupported-RR-type failure: the literal string
of errors.New in the default arm of constructResource (src/utils.go). -/
def errUnsupported : String := "Type not supported"

/-- Error text of errors.New in Client.Resolve when more than one
resolver argument is passed (src/client.go). -/
def errResolvers : String := "Invalid number of resolvers provided"

/-- Go uint16 reduction for a non-negative JSON numeric. -/
def u16 (n : Nat) : Nat := n % 65536

/-- Go uint32 reduction for a non-negative JSON numeric. -/
def u32 (n : Nat) : Nat := n % 4294967296

/-- Go conversion int -> uint8 (two's-complement truncation). -/
def u8i (i : Int) : Nat := (i % (256 : Int)).toNat

/-- Go conversion int -> uint16 (two's-complement truncation). -/
def u16i (i : Int) : Nat := (i % (65536 : Int)).toNat

/-- Go conversion int -> uint32 (two's-complement truncation). -/
def u32i (i : Int) : Nat := (i % (4294967296 : Int)).toNat

/-- Decimal digit test on a character. -/
def decDigit (c : Char) : Bool := 48 ≤ c.toNat && c.toNat ≤ 57

/-- Value of a decimal digit string. -/
def digitsVal (l : List Char) : Nat :=
  l.foldl (fun a c => a * 10 + (c.toNat - 48)) 0

/-- Model of Go strconv.Atoi: returns (value, error).  On a syntax
error the value is 0; on a range error the value is clamped to the
int64 bound, exactly as strconv.ParseInt does. -/
def Atoi (s : String) : Int × Option String :=
  match s.data with
  | [] => (0, some errSyntax)
  | c :: rest =>
    let p : Bool × List Char :=
      if c = '-' then (true, rest)
      else if c = '+' then (false, rest)
      else (false, c :: rest)
    if p.2 = [] then (0, some errSyntax)
    else if p.2.all decDigit then
      let v := digitsVal p.2
      if p.1 then
        if v ≤ 2 ^ 63 then (-(v : Int), none) else (-(2 ^ 63 : Int), some errRange)
      else
        if v < 2 ^ 63 then ((v : Int), none) else (((2 ^ 63 - 1 : Nat) : Int), some errRange)
    else (0, some errSyntax)

/-- Split a character list around every occurrence of a separator,
keeping empty fields, as Go strings.Split does for a one-character
separator. -/
def splitChar (sep : Char) : List Char → List (List Char)
  | [] => [[]]
  | c :: rest =>
    match splitChar sep rest with
    | [] => [[]]
    | t :: ts => if c = sep then [] :: t :: ts else (c :: t) :: ts

/-- Model of Go strings.Split(s, " "). -/
def goSplit (s : String) : List String :=
  (splitChar ' ' s.data).map String.mk

/-- Indexing into the token list, with a default that is only reached
when the Go code would panic (callers guard the length first). -/
def tok (d : List String) (i : Nat) : String := List.getD d i blank

/-- Number of leading backslash characters of a character list. -/
def countLeadingBackslashes : List Char → Nat
  | '\\' :: rest => countLeadingBackslashes rest + 1
  | _ => 0

/-- Model of miekg/dns IsFqdn: the name ends in an unescaped dot
(the number of backslashes immediately before the final dot is even). -/
def IsFqdn (s : String) : Bool :=
  match s.data.reverse with
  | [] => false
  | c :: rest => c = '.' && decide (countLeadingBackslashes rest % 2 = 0)

/-- Model of miekg/dns Fqdn: append a trailing dot unless the name is
already fully qualified. -/
def Fqdn (s : String) : String :=
  if IsFqdn s then s else s ++ "."

/-- Property language: the string literally ends with a dot character. -/
def endsInDot (s : String) : Bool :=
  match s.data.reverse with
  | [] => false
  | c :: _ => c = '.'

/-- Partial model of the miekg/dns StringToType map, covering the
record type names of the supported set; a missing key yields the Go
map zero value 0. -/
def StringToType (s : String) : Nat :=
  if s = "A" then 1
  else if s = "NS" then 2
  else if s = "CNAME" then 5
  else if s = "SOA" then 6
  else if s = "PTR" then 12
  else if s = "MX" then 15
  else if s = "TXT" then 16
  else if s = "AAAA" then 28
  else if s = "SRV" then 33
  else if s = "RRSIG" then 46
  else if s = "NSEC" then 47
  else 0

/-- Parse one dotted-quad field: nonempty, decimal digits, value at
most 255. -/
def parseV4Field (l : List Char) : Option Nat :=
  if l = [] then none
  else if l.all decDigit then
    let v := digitsVal l
    if v ≤ 255 then some v else none
  else none

/-- Hexadecimal digit value of a character, if any. -/
def hexVal (c : Char) : Option Nat :=
  if 48 ≤ c.toNat && c.toNat ≤ 57 then some (c.toNat - 48)
  else if 97 ≤ c.toNat && c.toNat ≤ 102 then some (c.toNat - 87)
  else if 65 ≤ c.toNat && c.toNat ≤ 70 then some (c.toNat - 55)
  else none

/-- Parse one IPv6 group of one to four hexadecimal digits. -/
def parseHexGroup (l : List Char) : Option Nat :=
  if l = [] then none
  else if l.length ≤ 4 then
    (l.mapM hexVal).map (fun ds => ds.foldl (fun a d => a * 16 + d) 0)
  else none

/-- Model of Go net.ParseIP: dotted-quad IPv4 (accepted in the 16-byte
IPv4-in-IPv6 representation net.ParseIP returns) and uncompressed
eight-group IPv6; every other string yields none, modelling the nil
net.IP.  No claim depends on exactly which strings parse, only on the
result being carried into the record unchecked. -/
def ParseIP (s : String) : Option (List Nat) :=
  let l := s.data
  if l.contains '.' && !(l.contains ':') then
    match (splitChar '.' l).mapM parseV4Field with
    | some [a, b, c, d] => some [0, 0, 0, 0, 0, 0, 0, 0, 0, 0, 255, 255, a, b, c, d]
    | _ => none
  else if l.contains ':' then
    match (splitChar ':' l).mapM parseHexGroup with
    | some gs =>
      if gs.length = 8 then some ((gs.map (fun g => [g / 256, g % 256])).flatten) else none
    | _ => none
  else none

/-- Helper of Unquote: consume characters after the opening double
quote; the closing quote must be the final character. -/
def unqAux : List Char → Option (List Char)
  | [] => none
  | ['"'] => some []
  | '"' :: _ :: _ => none
  | '\n' :: _ => none
  | '\\' :: esc =>
    match esc with
    | 'n' :: rest => (unqAux rest).map (fun t => '\n' :: t)
    | 't' :: rest => (unqAux rest).map (fun t => '\t' :: t)
    | 'r' :: rest => (unqAux rest).map (fun t => '\r' :: t)
    | '\\' :: rest => (unqAux rest).map (fun t => '\\' :: t)
    | '"' :: rest => (unqAux rest).map (fun t => '"' :: t)
    | _ => none
  | c :: rest => (unqAux rest).map (fun t => c :: t)

/-- Model of Go strconv.Unquote restricted to double-quoted strings
(the JSON-quoted form the TXT data arrives in): the input must begin
and end with a double quote; common escape sequences are decoded;
anything else fails with a syntax error. -/
def Unquote (s : String) : Option String :=
  match s.data with
  | '"' :: rest => (unqAux rest).map String.mk
  | _ => none

/-- Result of a Go function returning (value, error): either the value
with a nil error, a non-nil error (the value being nil/zero), a runtime
panic (out-of-range slice index), or process termination via log.Fatal. -/
inductive GoRes (α : Type) where
  | ok (val : α)
  | err (msg : String)
  | crash
  deriving DecidableEq

/-- True exactly when the result is a returned non-nil error. -/
def GoRes.isErr {α : Type} : GoRes α → Bool
  | .err _ => true
  | _ => false

/-- True exactly when the result is a value with nil error. -/
def GoRes.isOk {α : Type} : GoRes α → Bool
  | .ok _ => true
  | _ => false

/-- One JSON answer object of a DoH response, after the type assertions
of constructResource (name string, type float64, TTL float64, data
string) have succeeded; the JSON numerics are integral and non-negative
in the DoH schema and are modelled as Nat. -/
structure Answer where
  name : String
  type : Nat
  TTL : Nat
  data : String
  deriving DecidableEq

/-- The common RR header built at the top of constructResource. -/
structure RR_Header where
  Name : String
  Rrtype : Nat
  Class : Nat
  Ttl : Nat
  deriving DecidableEq

/-- dns.ClassINET. -/
def classINET : Nat := 1

/-- The typed resource records constructResource can build
(miekg/dns A, NS, CNAME, SOA, PTR, MX, TXT, AAAA, SRV, RRSIG, NSEC).
The A and AAAA payloads are the result of net.ParseIP, none modelling
the nil net.IP. -/
inductive RR where
  | A (Hdr : RR_Header) (Addr : Option (List Nat))
  | NS (Hdr : RR_Header) (Ns : String)
  | CNAME (Hdr : RR_Header) (Target : String)
  | SOA (Hdr : RR_Header) (Ns Mbox : String) (Serial Refresh Retry Expire Minttl : Nat)
  | PTR (Hdr : RR_Header) (Ptr : String)
  | MX (Hdr : RR_Header) (Preference : Nat) (Mx : String)
  | TXT (Hdr : RR_Header) (Txt : List String)
  | AAAA (Hdr : RR_Header) (Addr : Option (List Nat))
  | SRV (Hdr : RR_Header) (Priority Weight Port : Nat) (Target : String)
  | RRSIG (Hdr : RR_Header) (TypeCovered Algorithm Labels OrigTtl Expiration Inception KeyTag : Nat)
      (SignerName Signature : String)
  | NSEC (Hdr : RR_Header) (NextDomain : String) (TypeBitMap : List Nat)
  deriving DecidableEq

/-- Header projection of a resource record. -/
def RR.hdr : RR → RR_Header
  | .A h _ => h
  | .NS h _ => h
  | .CNAME h _ => h
  | .SOA h _ _ _ _ _ _ _ => h
  | .PTR h _ => h
  | .MX h _ _ => h
  | .TXT h _ => h
  | .AAAA h _ => h
  | .SRV h _ _ _ _ => h
  | .RRSIG h _ _ _ _ _ _ _ _ _ => h
  | .NSEC h _ _ => h

/-- Resource header of constructResource (src/utils.go lines 14-19):
FQDN-forced name, uint16 type, class IN, uint32 TTL. -/
def mkHeader (answer : Answer) : RR_Header :=
  { Name := Fqdn answer.name
    Rrtype := u16 answer.type
    Class := classINET
    Ttl := u32 answer.TTL }

/-- SOA arm of constructResource (src/utils.go lines 45-69).  The Go
code runs strconv.Atoi on tokens 2..6 overwriting one err variable and
checks only the last result; the values of masked failing parses are
Atoi error values (0).  Fewer than 7 tokens panics on slice indexing. -/
def soaCase (hdr : RR_Header) (d : List String) : GoRes RR :=
  if d.length < 7 then .crash else
  match Atoi (tok d 6) with
  | (_, some e) => .err e
  | (minTTL, none) =>
    .ok (.SOA hdr (tok d 0) (tok d 1)
      (u32i (Atoi (tok d 2)).1) (u32i (Atoi (tok d 3)).1)
      (u32i (Atoi (tok d 4)).1) (u32i (Atoi (tok d 5)).1) (u32i minTTL))

/-- MX arm of constructResource (src/utils.go lines 77-92): the
preference parse error is checked, then token 1 is indexed (panicking
when missing). -/
def mxCase (hdr : RR_Header) (d : List String) : GoRes RR :=
  match Atoi (tok d 0) with
  | (_, some e) => .err e
  | (pref, none) =>
    if d.length < 2 then .crash
    else .ok (.MX hdr (u16i pref) (tok d 1))

/-- TXT arm of constructResource (src/utils.go lines 93-106): the data
string is unquoted with strconv.Unquote; failure is returned, success
yields a single-element text list. -/
def txtCase (hdr : RR_Header) (dataStr : String) : GoRes RR :=
  match Unquote dataStr with
  | none => .err errSyntax
  | some d => .ok (.TXT hdr [d])

/-- SRV arm of constructResource (src/utils.go lines 115-133): Atoi on
tokens 0..2 with the same masked error slot, only the port error
checked, then token 3 indexed. -/
def srvCase (hdr : RR_Header) (d : List String) : GoRes RR :=
  if d.length < 3 then .crash else
  match Atoi (tok d 2) with
  | (_, some e) => .err e
  | (port, none) =>
    if d.length < 4 then .crash
    else .ok (.SRV hdr (u16i (Atoi (tok d 0)).1) (u16i (Atoi (tok d 1)).1) (u16i port) (tok d 3))

/-- RRSIG arm of constructResource (src/utils.go lines 134-161): Atoi
on tokens 1..6 with the masked error slot, only the key-tag error
checked; token 0 goes through StringToType; tokens 7 and 8 are indexed
after the check. -/
def rrsigCase (hdr : RR_Header) (d : List String) : GoRes RR :=
  if d.length < 7 then .crash else
  match Atoi (tok d 6) with
  | (_, some e) => .err e
  | (keyTag, none) =>
    if d.length < 9 then .crash
    else .ok (.RRSIG hdr (StringToType (tok d 0)) (u8i (Atoi (tok d 1)).1)
      (u8i (Atoi (tok d 2)).1) (u32i (Atoi (tok d 3)).1) (u32i (Atoi (tok d 4)).1)
      (u32i (Atoi (tok d 5)).1) (u16i keyTag) (tok d 7) (tok d 8))

/-- NSEC arm of constructResource (src/utils.go lines 162-177). -/
def nsecCase (hdr : RR_Header) (d : List String) : GoRes RR :=
  .ok (.NSEC hdr (tok d 0) ((d.drop 1).map StringToType))

/-- constructResource (src/utils.go lines 13-185): build the common
header, then dispatch on the numeric JSON type; any type outside the
supported set reaches the default arm and fails with the
"Type not supported" error.  (src/client.go lines 411-569 carries a
stale duplicate of this function that lacks the TXT arm.) -/
def constructResource (answer : Answer) : GoRes RR :=
  if answer.type = 1 then .ok (.A (mkHeader answer) (ParseIP answer.data))
  else if answer.type = 2 then .ok (.NS (mkHeader answer) answer.data)
  else if answer.type = 5 then .ok (.CNAME (mkHeader answer) answer.data)
  else if answer.type = 6 then soaCase (mkHeader answer) (goSplit answer.data)
  else if answer.type = 12 then .ok (.PTR (mkHeader answer) answer.data)
  else if answer.type = 15 then mxCase (mkHeader answer) (goSplit answer.data)
  else if answer.type = 16 then txtCase (mkHeader answer) answer.data
  else if answer.type = 28 then .ok (.AAAA (mkHeader answer) (ParseIP answer.data))
  else if answer.type = 33 then srvCase (mkHeader answer) (goSplit answer.data)
  else if answer.type = 46 then rrsigCase (mkHeader answer) (goSplit answer.data)
  else if answer.type = 47 then nsecCase (mkHeader answer) (goSplit answer.data)
  else .err errUnsupported

/-- The supported RR type set of the reconstructor (the arms of the
switch in src/utils.go constructResource). -/
def supported (t : Nat) : Bool :=
  t = 1 || t = 2 || t = 5 || t = 6 || t = 12 || t = 15 || t = 16 ||
  t = 28 || t = 33 || t = 46 || t = 47

/-- A DoH JSON response map after successful type assertions: the three
optional section arrays and the three optional boolean flags.  A none
field models an absent key of the Go map. -/
structure ResponseMap where
  Answer : Option (List DoHProxy.Answer)
  Authority : Option (List DoHProxy.Answer)
  Additional : Option (List DoHProxy.Answer)
  TC : Option Bool
  RD : Option Bool
  RA : Option Bool
  deriving DecidableEq

/-- The response map with every key absent. -/
def rmEmpty : ResponseMap :=
  { Answer := none, Authority := none, Additional := none
    TC := none, RD := none, RA := none }

/-- One section loop of constructResponseMessage: build each record in
order, returning the first failure. -/
def constructSection : List Answer → GoRes (List RR)
  | [] => .ok []
  | a :: rest =>
    match constructResource a with
    | .err e => .err e
    | .crash => .crash
    | .ok rr =>
      match constructSection rest with
      | .err e => .err e
      | .crash => .crash
      | .ok rrs => .ok (rr :: rrs)

/-- Section construction including the key-presence check (an absent
key skips the loop, leaving the section empty). -/
def sectionRRs (o : Option (List Answer)) : GoRes (List RR) :=
  match o with
  | none => .ok []
  | some l => constructSection l

/-- One DNS question (miekg/dns Question). -/
structure Question where
  Name : String
  Qtype : Nat
  Qclass : Nat
  deriving DecidableEq

/-- A DNS message (the fields of miekg/dns Msg the core reads or
writes: the embedded MsgHdr flags, the compression flag, and the four
sections). -/
structure Msg where
  Id : Nat
  Response : Bool
  Opcode : Nat
  RecursionDesired : Bool
  RecursionAvailable : Bool
  Truncated : Bool
  Rcode : Nat
  Compress : Bool
  Question : List Question
  Answer : List RR
  Ns : List RR
  Extra : List RR
  deriving DecidableEq

/-- The zero message produced by Go new(dns.Msg). -/
def zeroMsg : Msg :=
  { Id := 0, Response := false, Opcode := 0, RecursionDesired := false
    RecursionAvailable := false, Truncated := false, Rcode := 0
    Compress := false, Question := [], Answer := [], Ns := [], Extra := [] }

/-- dns.OpcodeQuery. -/
def OpcodeQuery : Nat := 0

/-- dns.RcodeSuccess (NOERROR). -/
def RcodeSuccess : Nat := 0

/-- dns.RcodeServerFailure (SERVFAIL). -/
def RcodeServerFailure : Nat := 2

/-- Model of miekg/dns Msg.SetReply: copy the id and opcode from the
request, set the response bit, copy RD for query opcodes, reset the
rcode to success, and place the first request question (if any) as the
sole question of the reply. -/
def SetReply (m request : Msg) : Msg :=
  { m with
    Id := request.Id
    Response := true
    Opcode := request.Opcode
    RecursionDesired :=
      if request.Opcode = OpcodeQuery then request.RecursionDesired else m.RecursionDesired
    Rcode := RcodeSuccess
    Question :=
      match request.Question with
      | [] => m.Question
      | q :: _ => [q] }

/-- constructResponseMessage (src/client.go lines 326-409): build the
three RR sections from the map (first failure aborts, leaving the
message untouched), then set the TC/RD/RA flags with defaults
false/true/true for absent keys, and store the sections. -/
def constructResponseMessage (responseM : Msg) (responseMap : ResponseMap) : GoRes Msg :=
  match sectionRRs responseMap.Answer with
  | .err e => .err e
  | .crash => .crash
  | .ok responseAnswers =>
    match sectionRRs responseMap.Authority with
    | .err e => .err e
    | .crash => .crash
    | .ok responseAuthorities =>
      match sectionRRs responseMap.Additional with
      | .err e => .err e
      | .crash => .crash
      | .ok responseAdditionals =>
        .ok { responseM with
              Truncated := responseMap.TC.getD false
              RecursionDesired := responseMap.RD.getD true
              RecursionAvailable := responseMap.RA.getD true
              Answer := responseAnswers
              Ns := responseAuthorities
              Extra := responseAdditionals }

/-- An upstream server (src/server.go Server): resolver name, upstream
address, port (53 for DNS, 443 for DoH). -/
structure Server where
  Name : String
  Upstream : String
  Port : Nat
  deriving DecidableEq

/-- Result of a Go function returning a possibly-nil message pointer
and a possibly-nil error, or terminating the process via log.Fatal. -/
inductive DNSRet where
  | fatal
  | ret (resp : Option Msg) (err : Option String)
  deriving DecidableEq

/-- DNS (src/server.go lines 159-194), parameterized by the network
exchange (miekg dns.Client.Exchange, returning a possibly-nil response
and a possibly-nil error).  A non-53 port hits log.Fatal.  On an
exchange error the error is returned.  On a non-success rcode: for
SERVFAIL the code executes return nil, err — but err is necessarily
nil at that point, so the caller receives (nil, nil); for every other
rcode control falls through and the upstream response is returned
unchanged with a nil error. -/
def DNS (exchange : Msg → Option Msg × Option String) (server : Server) (queryM : Msg) :
    DNSRet :=
  if server.Port ≠ 53 then .fatal else
  match (exchange queryM).2 with
  | some e => .ret none (some e)
  | none =>
    match (exchange queryM).1 with
    | some responseM =>
      if responseM.Rcode ≠ RcodeSuccess then
        if responseM.Rcode = RcodeServerFailure then .ret none none
        else .ret (some responseM) none
      else .ret (some responseM) none
    | none => .ret none none

/-- Result of Client.Resolve and Server.Resolve: a possibly-nil message
with a possibly-nil error, a runtime panic propagated from the
reconstructor, or process termination propagated from log.Fatal. -/
inductive ResolveRet where
  | fatal
  | crash
  | ret (resp : Option Msg) (err : Option String)
  deriving DecidableEq

/-- Resolver selection of one loop iteration of Client.Resolve: the
provided resolver when one was passed, otherwise the shard choice
(src/client.go lines 278-283; shard is random, modelled as a function
argument). -/
def pick (shard : Question → Server) (resolvers : List Server) (q : Question) : Server :=
  match resolvers with
  | [] => shard q
  | r :: _ => r

/-- The question loop of Client.Resolve (src/client.go lines 273-312),
parameterized by the DoH call (HTTPS GET returning a JSON map or an
error) and the DNS exchange.  A DoH iteration sets Compress, seeds the
reply header from the query via SetReply, and rebuilds the sections
in place; a DNS iteration assigns whatever DNS returned (possibly nil)
and breaks out of the loop; a resolver with any other port leaves the
message untouched and continues. -/
def resolveLoop (doh : Server → Question → Except String ResponseMap)
    (exchange : Msg → Option Msg × Option String)
    (shard : Question → Server) (resolvers : List Server) (queryM : Msg) :
    List Question → Msg → ResolveRet
  | [], responseM => .ret (some responseM) none
  | question :: rest, responseM =>
    if (pick shard resolvers question).Port = 443 then
      match doh (pick shard resolvers question) question with
      | .error e => .ret none (some e)
      | .ok responseMap =>
        match constructResponseMessage
            (SetReply { responseM with Compress := true } queryM) responseMap with
        | .err e => .ret none (some e)
        | .crash => .crash
        | .ok m => resolveLoop doh exchange shard resolvers queryM rest m
    else if (pick shard resolvers question).Port = 53 then
      match DNS exchange (pick shard resolvers question) queryM with
      | .fatal => .fatal
      | .ret resp errv =>
        match errv with
        | some e => .ret none (some e)
        | none => .ret resp none
    else
      resolveLoop doh exchange shard resolvers queryM rest responseM

/-- Client.Resolve (src/client.go lines 250-315): reject more than one
provided resolver, then run the question loop starting from a fresh
zero message. -/
def Resolve (doh : Server → Question → Except String ResponseMap)
    (exchange : Msg → Option Msg × Option String)
    (shard : Question → Server) (queryM : Msg) (resolvers : List Server) : ResolveRet :=
  if resolvers.length > 1 then .ret none (some errResolvers)
  else resolveLoop doh exchange shard resolvers queryM queryM.Question zeroMsg

/-- REQ_DNS (src/server.go). -/
def REQ_DNS : Nat := 1

/-- REQ_DOH (src/server.go). -/
def REQ_DOH : Nat := 2

/-- The DoH question loop of Server.Resolve (src/server.go lines
74-92): same per-question construction as the client loop, always
against the single given server. -/
def serverResolveLoop (doh : Server → Question → Except String ResponseMap)
    (server : Server) (queryM : Msg) : List Question → Msg → ResolveRet
  | [], responseM => .ret (some responseM) none
  | question :: rest, responseM =>
    match doh server question with
    | .error e => .ret none (some e)
    | .ok responseMap =>
      match constructResponseMessage
          (SetReply { responseM with Compress := true } queryM) responseMap with
      | .err e => .ret none (some e)
      | .crash => .crash
      | .ok m => serverResolveLoop doh server queryM rest m

/-- Server.Resolve (src/server.go lines 65-102): dispatch on the
request type; REQ_DOH iterates the questions through the DoH path,
REQ_DNS forwards through DNS (assigning a possibly-nil message), any
other request type returns the untouched zero message. -/
def ServerResolve (doh : Server → Question → Except String ResponseMap)
    (exchange : Msg → Option Msg × Option String)
    (server : Server) (queryM : Msg) (reqType : Nat) : ResolveRet :=
  if reqType = REQ_DOH then
    serverResolveLoop doh server queryM queryM.Question zeroMsg
  else if reqType = REQ_DNS then
    match DNS exchange server queryM with
    | .fatal => .fatal
    | .ret resp errv =>
      match errv with
      | some e => .ret none (some e)
      | none => .ret resp none
  else .ret (some zeroMsg) none

/-- A pipeline job (src/client.go job): client return address (modelled
as a string) and the byte buffer. -/
structure Job where
  Addr : String
  Data : List Nat
  deriving DecidableEq

/-- One listener iteration of runListener (src/client.go lines
209-221): buffer := make 1024 zero bytes; ReadFrom fills its first n
bytes with the datagram and returns (n, addr); the enqueued job is
built from addr and the whole buffer variable — not buffer sliced to
n bytes. -/
def listenerJob (addr : String) (datagram : List Nat) : Job :=
  { Addr := addr
    Data := datagram ++ List.replicate (1024 - datagram.length) 0 }

/-! Helper lemmas shared by the claim theorems. -/

/-- The result of Fqdn always ends in a literal dot character. -/
theorem fqdn_endsInDot (s : String) : endsInDot (Fqdn s) = true := by
  unfold Fqdn
  split
  case isTrue h =>
    unfold IsFqdn at h
    unfold endsInDot
    rcases hrev : s.data.reverse with _ | ⟨c, rest⟩ <;> rw [hrev] at h
    · simp at h
    · simp only [Bool.and_eq_true] at h
      exact h.1
  case isFalse h =>
    unfold endsInDot
    have hd : (s ++ ".").data = s.data ++ ['.'] := String.data_append s "."
    rw [hd, List.reverse_append]
    simp

/-- SetReply copies the transaction id of the request. -/
theorem setReply_id (m request : Msg) : (SetReply m request).Id = request.Id := rfl

/-- Shape of a successful constructResponseMessage: all three sections
were built successfully and the result is the input message with the
flags and sections replaced. -/
theorem crm_shape (m : Msg) (rm : ResponseMap) (m2 : Msg)
    (hc : constructResponseMessage m rm = .ok m2) :
    ∃ ans au ad, sectionRRs rm.Answer = .ok ans ∧ sectionRRs rm.Authority = .ok au ∧
      sectionRRs rm.Additional = .ok ad ∧
      m2 = { m with Truncated := rm.TC.getD false
                    RecursionDesired := rm.RD.getD true
                    RecursionAvailable := rm.RA.getD true
                    Answer := ans, Ns := au, Extra := ad } := by
  unfold constructResponseMessage at hc
  split at hc
  next e he => exact absurd hc (by simp)
  next he => exact absurd hc (by simp)
  next ans hA =>
    split at hc
    next e he => exact absurd hc (by simp)
    next he => exact absurd hc (by simp)
    next au hU =>
      split at hc
      next e he => exact absurd hc (by simp)
      next he => exact absurd hc (by simp)
      next ad hD =>
        injection hc with h2
        exact ⟨ans, au, ad, hA, hU, hD, h2.symm⟩

/-- A successful constructResponseMessage leaves the transaction id of
the message it was given. -/
theorem crm_id (m : Msg) (rm : ResponseMap) (m2 : Msg)
    (hc : constructResponseMessage m rm = .ok m2) : m2.Id = m.Id := by
  obtain ⟨ans, au, ad, _, _, _, h2⟩ := crm_shape m rm m2 hc
  subst h2
  rfl

/-- A successful constructResponseMessage stores exactly the Answer
section built from the map. -/
theorem crm_answer (m : Msg) (rm : ResponseMap) (m2 : Msg)
    (hc : constructResponseMessage m rm = .ok m2) :
    sectionRRs rm.Answer = .ok m2.Answer := by
  obtain ⟨ans, au, ad, hA, _, _, h2⟩ := crm_shape m rm m2 hc
  subst h2
  exact hA

/-- Every successful SOA construction carries the given header. -/
theorem soaCase_hdr (h : RR_Header) (d : List String) (rr : RR)
    (hc : soaCase h d = .ok rr) : rr.hdr = h := by
  unfold soaCase at hc
  split at hc
  · exact absurd hc (by simp)
  · split at hc
    · exact absurd hc (by simp)
    · injection hc with h2; subst h2; rfl

/-- Every successful MX construction carries the given header. -/
theorem mxCase_hdr (h : RR_Header) (d : List String) (rr : RR)
    (hc : mxCase h d = .ok rr) : rr.hdr = h := by
  unfold mxCase at hc
  split at hc
  · exact absurd hc (by simp)
  · split at hc
    · exact absurd hc (by simp)
    · injection hc with h2; subst h2; rfl

/-- Every successful TXT construction carries the given header. -/
theorem txtCase_hdr (h : RR_Header) (d : String) (rr : RR)
    (hc : txtCase h d = .ok rr) : rr.hdr = h := by
  unfold txtCase at hc
  split at hc
  · exact absurd hc (by simp)
  · injection hc with h2; subst h2; rfl

/-- Every successful SRV construction carries the given header. -/
theorem srvCase_hdr (h : RR_Header) (d : List String) (rr : RR)
    (hc : srvCase h d = .ok rr) : rr.hdr = h := by
  unfold srvCase at hc
  split at hc
  · exact absurd hc (by simp)
  · split at hc
    · exact absurd hc (by simp)
    · split at hc
      · exact absurd hc (by simp)
      · injection hc with h2; subst h2; rfl

/-- Every successful RRSIG construction carries the given header. -/
theorem rrsigCase_hdr (h : RR_Header) (d : List String) (rr : RR)
    (hc : rrsigCase h d = .ok rr) : rr.hdr = h := by
  unfold rrsigCase at hc
  split at hc
  · exact absurd hc (by simp)
  · split at hc
    · exact absurd hc (by simp)
    · split at hc
      · exact absurd hc (by simp)
      · injection hc with h2; subst h2; rfl

/-- Every successful NSEC construction carries the given header. -/
theorem nsecCase_hdr (h : RR_Header) (d : List String) (rr : RR)
    (hc : nsecCase h d = .ok rr) : rr.hdr = h := by
  unfold nsecCase at hc
  injection hc with h2; subst h2; rfl

set_option maxHeartbeats 1600000 in
/-- Every record constructResource successfully builds carries the
header assembled by mkHeader. -/
theorem constructResource_hdr (a : Answer) (rr : RR)
    (hc : constructResource a = .ok rr) : rr.hdr = mkHeader a := by
  unfold constructResource at hc
  split at hc
  · injection hc with h2; subst h2; rfl
  · split at hc
    · injection hc with h2; subst h2; rfl
    · split at hc
      · injection hc with h2; subst h2; rfl
      · split at hc
        · exact soaCase_hdr _ _ _ hc
        · split at hc
          · injection hc with h2; subst h2; rfl
          · split at hc
            · exact mxCase_hdr _ _ _ hc
            · split at hc
              · exact txtCase_hdr _ _ _ hc
              · split at hc
                · injection hc with h2; subst h2; rfl
                · split at hc
                  · exact srvCase_hdr _ _ _ hc
                  · split at hc
                    · exact rrsigCase_hdr _ _ _ hc
                    · split at hc
                      · exact nsecCase_hdr _ _ _ hc
                      · exact absurd hc (by simp)

/-- A JSON answer whose numeric type is outside the supported set
reaches the default arm of the switch. -/
theorem constructResource_unsupported (a : Answer) (h : supported a.type = false) :
    constructResource a = .err errUnsupported := by
  unfold supported at h
  simp only [Bool.or_eq_false_iff, decide_eq_false_iff_not] at h
  obtain ⟨⟨⟨⟨⟨⟨⟨⟨⟨⟨h1, h2⟩, h5⟩, h6⟩, h12⟩, h15⟩, h16⟩, h28⟩, h33⟩, h46⟩, h47⟩ := h
  unfold constructResource
  simp [h1, h2, h5, h6, h12, h15, h16, h28, h33, h46, h47]

/-- A section whose answers all construct successfully yields a list. -/
theorem constructSection_all_ok (l : List Answer)
    (h : ∀ a ∈ l, (constructResource a).isOk = true) :
    ∃ rrs, constructSection l = .ok rrs := by
  induction l with
  | nil => exact ⟨[], rfl⟩
  | cons a rest ih =>
    have ha := h a (List.mem_cons_self a rest)
    obtain ⟨rrs, hs⟩ := ih (fun x hx => h x (List.mem_cons_of_mem a hx))
    cases hcr : constructResource a with
    | ok rr => exact ⟨rr :: rrs, by simp [constructSection, hcr, hs]⟩
    | err e => rw [hcr] at ha; simp [GoRes.isOk] at ha
    | crash => rw [hcr] at ha; simp [GoRes.isOk] at ha

/-- A section containing an unsupported-type answer, all of whose
supported-type answers construct successfully, fails with the
unsupported-type error. -/
theorem constructSection_unsupported (l : List Answer)
    (hex : ∃ a ∈ l, supported a.type = false)
    (hok : ∀ a ∈ l, supported a.type = true → (constructResource a).isOk = true) :
    constructSection l = .err errUnsupported := by
  induction l with
  | nil => simp at hex
  | cons a rest ih =>
    by_cases hs : supported a.type = true
    · have ha := hok a (List.mem_cons_self a rest) hs
      cases hcr : constructResource a with
      | err e => rw [hcr] at ha; simp [GoRes.isOk] at ha
      | crash => rw [hcr] at ha; simp [GoRes.isOk] at ha
      | ok rr =>
        have hex2 : ∃ x ∈ rest, supported x.type = false := by
          obtain ⟨x, hx, hxs⟩ := hex
          rcases List.mem_cons.mp hx with h | h
          · subst h; simp [hxs] at hs
          · exact ⟨x, h, hxs⟩
        have hrest := ih hex2 (fun x hx h2 => hok x (List.mem_cons_of_mem a hx) h2)
        simp [constructSection, hcr, hrest]
    · have hcu := constructResource_unsupported a (by simpa using hs)
      simp [constructSection, hcu]

/-- sectionRRs version of constructSection_all_ok. -/
theorem sectionRRs_all_ok (o : Option (List Answer))
    (h : ∀ a ∈ o.getD [], (constructResource a).isOk = true) :
    ∃ rrs, sectionRRs o = .ok rrs := by
  cases o with
  | none => exact ⟨[], rfl⟩
  | some l => exact constructSection_all_ok l (by simpa using h)

/-- sectionRRs version of constructSection_unsupported. -/
theorem sectionRRs_unsupported (o : Option (List Answer))
    (hex : ∃ a ∈ o.getD [], supported a.type = false)
    (hok : ∀ a ∈ o.getD [], supported a.type = true → (constructResource a).isOk = true) :
    sectionRRs o = .err errUnsupported := by
  cases o with
  | none => simp at hex
  | some l => exact constructSection_unsupported l (by simpa using hex) (by simpa using hok)

/-- DNS yields a message only when the exchange returned exactly that
message with a nil error (and its rcode is not SERVFAIL). -/
theorem dns_some (exchange : Msg → Option Msg × Option String) (server : Server)
    (queryM : Msg) (resp : Msg) (e : Option String)
    (h : DNS exchange server queryM = .ret (some resp) e) :
    exchange queryM = (some resp, none) := by
  unfold DNS at h
  split at h
  · exact absurd h (by simp)
  · split at h
    next e2 he2 => exact absurd h (by simp)
    next he2 =>
      split at h
      next r hr =>
        rw [Prod.ext_iff]
        split at h
        · split at h
          · exact absurd h (by simp)
          · injection h with h1 h2
            exact ⟨hr.trans h1, he2⟩
        · injection h with h1 h2
          exact ⟨hr.trans h1, he2⟩
      next hr => exact absurd h (by simp)

/-- Along the client question loop, any produced message carries the
query id, provided every involved resolver uses port 443 or 53, the
exchange echoes the query id, and either the incoming message already
carries the id or at least one question remains. -/
theorem resolveLoop_id (doh : Server → Question → Except String ResponseMap)
    (exchange : Msg → Option Msg × Option String) (shard : Question → Server)
    (resolvers : List Server) (queryM : Msg)
    (hex : ∀ r e, exchange queryM = (some r, e) → r.Id = queryM.Id) :
    ∀ (qs : List Question) (responseM : Msg),
      (∀ q ∈ qs, (pick shard resolvers q).Port = 443 ∨ (pick shard resolvers q).Port = 53) →
      (responseM.Id = queryM.Id ∨ qs ≠ []) →
      ∀ resp e, resolveLoop doh exchange shard resolvers queryM qs responseM = .ret (some resp) e →
        resp.Id = queryM.Id := by
  intro qs
  induction qs with
  | nil =>
    intro responseM hports hinit resp e hr
    unfold resolveLoop at hr
    injection hr with h1 h2
    injection h1 with h1
    rcases hinit with h | h
    · rw [← h1]; exact h
    · exact absurd rfl h
  | cons q rest ih =>
    intro responseM hports hinit resp e hr
    unfold resolveLoop at hr
    split at hr
    · split at hr
      next e0 hd => exact absurd hr (by simp)
      next rm hd =>
        split at hr
        next e0 hcrm => exact absurd hr (by simp)
        next hcrm => exact absurd hr (by simp)
        next m hcrm =>
          have hid : m.Id = queryM.Id := by
            rw [crm_id _ _ _ hcrm, setReply_id]
          exact ih m (fun x hx => hports x (List.mem_cons_of_mem q hx)) (Or.inl hid) resp e hr
    · split at hr
      · split at hr
        next hdns => exact absurd hr (by simp)
        next resp0 errv hdns =>
          split at hr
          · exact absurd hr (by simp)
          · injection hr with h1 h2
            rw [h1] at hdns
            exact hex resp none (dns_some exchange _ queryM resp none hdns)
      · have hq := hports q (List.mem_cons_self q rest)
        rename_i hn443 hn53
        rcases hq with h | h
        · exact absurd h hn443
        · exact absurd h hn53

/-- Along the server DoH question loop, any produced message carries
the query id, provided either the incoming message already carries the
id or at least one question remains. -/
theorem serverResolveLoop_id (doh : Server → Question → Except String ResponseMap)
    (server : Server) (queryM : Msg) :
    ∀ (qs : List Question) (responseM : Msg),
      (responseM.Id = queryM.Id ∨ qs ≠ []) →
      ∀ resp e, serverResolveLoop doh server queryM qs responseM = .ret (some resp) e →
        resp.Id = queryM.Id := by
  intro qs
  induction qs with
  | nil =>
    intro responseM hinit resp e hr
    unfold serverResolveLoop at hr
    injection hr with h1 h2
    injection h1 with h1
    rcases hinit with h | h
    · rw [← h1]; exact h
    · exact absurd rfl h
  | cons q rest ih =>
    intro responseM hinit resp e hr
    unfold serverResolveLoop at hr
    split at hr
    next e0 hd => exact absurd hr (by simp)
    next rm hd =>
      split at hr
      next e0 hcrm => exact absurd hr (by simp)
      next hcrm => exact absurd hr (by simp)
      next m hcrm =>
        have hid : m.Id = queryM.Id := by
          rw [crm_id _ _ _ hcrm, setReply_id]
        exact ih m (Or.inl hid) resp e hr

/-- All answers of a response map, in the section order the Go code
processes them (Answer, Authority, Additional). -/
def rmAnswers (rm : ResponseMap) : List Answer :=
  rm.Answer.getD [] ++ rm.Authority.getD [] ++ rm.Additional.getD []

/-! Concrete fixtures used by witnesses and counterexamples. -/

/-- A DoH upstream (port 443). -/
def srv443 : Server := { Name := "Cloudflare", Upstream := "1.1.1.1/dns-query", Port := 443 }

/-- A classical DNS upstream (port 53). -/
def srv53 : Server := { Name := "Google", Upstream := "8.8.8.8", Port := 53 }

/-- Question for name a.example. -/
def qA : Question := { Name := "a.example.", Qtype := 1, Qclass := 1 }

/-- Question for name b.example. -/
def qB : Question := { Name := "b.example.", Qtype := 1, Qclass := 1 }

/-- A-type JSON answer for a.example. -/
def ansA : Answer := { name := "a.example.", type := 1, TTL := 60, data := "1.2.3.4" }

/-- A-type JSON answer for b.example. -/
def ansB : Answer := { name := "b.example.", type := 1, TTL := 60, data := "5.6.7.8" }

/-- Header of the record built from ansA. -/
def hdrA : RR_Header := { Name := "a.example.", Rrtype := 1, Class := 1, Ttl := 60 }

/-- Header of the record built from ansB. -/
def hdrB : RR_Header := { Name := "b.example.", Rrtype := 1, Class := 1, Ttl := 60 }

/-- Record built from ansA. -/
def rrA : RR := .A hdrA (some [0, 0, 0, 0, 0, 0, 0, 0, 0, 0, 255, 255, 1, 2, 3, 4])

/-- Record built from ansB. -/
def rrB : RR := .A hdrB (some [0, 0, 0, 0, 0, 0, 0, 0, 0, 0, 255, 255, 5, 6, 7, 8])

/-- An exchange function that always fails (used where the DNS path is
not exercised). -/
def exchNone : Msg → Option Msg × Option String := fun _ => (none, some errSyntax)

/-- A shard function that always selects the DoH upstream. -/
def shard443 : Question → Server := fun _ => srv443

/-! Claim C1. -/

/-- Upstream SERVFAIL response (rcode 2). -/
def servfailMsg : Msg := { zeroMsg with Id := 7, Rcode := 2 }

/-- Upstream NXDOMAIN response (rcode 3). -/
def nxdomainMsg : Msg := { zeroMsg with Id := 7, Rcode := 3 }

/-- Exchange returning SERVFAIL with nil error. -/
def exchServFail : Msg → Option Msg × Option String := fun _ => (some servfailMsg, none)

/-- Exchange returning NXDOMAIN with nil error. -/
def exchNxdomain : Msg → Option Msg × Option String := fun _ => (some nxdomainMsg, none)

/-- One-question query with id 7. -/
def query1 : Msg := { zeroMsg with Id := 7, Question := [qA] }

/-- Claim C1 (code-bug evaluation): in the classical DNS variant
(port 53), when the upstream response has rcode SERVFAIL the DNS
operation returns a nil message together with a NIL error — the
statement return nil, err executes with err already nil, so no
UpstreamFailure error reaches the caller, contrary to the claim; for
any other non-success rcode (here NXDOMAIN) the upstream response is
returned unchanged with no error, as the claim states. -/
theorem claim1_dns_servfail_nil_error :
    DNS exchServFail srv53 query1 = .ret none none ∧
    DNS exchNxdomain srv53 query1 = .ret (some nxdomainMsg) none := by decide

/-! Claim C2. -/

/-- SOA answer whose serial token X is unparseable but whose minttl
token parses. -/
def ansSOAmask : Answer :=
  { name := "example.com.", type := 6, TTL := 300
    data := "ns1.example.com. hostmaster.example.com. X 7200 3600 1209600 300" }

/-- Header of the record built from ansSOAmask. -/
def hdrSOAmask : RR_Header :=
  { Name := "example.com.", Rrtype := 6, Class := 1, Ttl := 300 }

/-- Claim C2 counterexample: a 7-token SOA answer whose serial token X
is not parseable while the minttl token parses: constructResource
returns a record (serial defaulted to Atoi error value 0) with NO
error, refuting the claim that any unparseable numeric token produces
a MalformedAnswer failure. -/
theorem claim2_counterexample :
    constructResource ansSOAmask =
      .ok (.SOA hdrSOAmask "ns1.example.com." "hostmaster.example.com."
        0 7200 3600 1209600 300) := by decide

/-- Claim C2 as amended: for a SOA answer whose data splits into 7
tokens, constructResource fails precisely when the minttl token
(index 6) is unparseable: the code overwrites one error slot over the
five Atoi calls and checks it only once, after the last parse, so
parse failures of serial, refresh, retry and expire are masked
whenever minttl parses (the masked fields take Atoi error value 0). -/
theorem claim2_soa_error_iff_last_token (a : Answer) (h6 : a.type = 6)
    (hlen : (goSplit a.data).length = 7) :
    (constructResource a).isErr = (Atoi (tok (goSplit a.data) 6)).2.isSome := by
  have hsoa : constructResource a = soaCase (mkHeader a) (goSplit a.data) := by
    unfold constructResource
    simp [h6]
  rw [hsoa]
  unfold soaCase
  rcases hA : Atoi (tok (goSplit a.data) 6) with ⟨v, oe⟩
  cases oe with
  | some e => simp [hlen, hA, GoRes.isErr]
  | none => simp [hlen, hA, GoRes.isErr]

/-- SOA answer whose minttl token Y is unparseable. -/
def ansSOAbadLast : Answer :=
  { name := "example.com.", type := 6, TTL := 300
    data := "ns1.example.com. hostmaster.example.com. 1 7200 3600 1209600 Y" }

/-- Claim C2 witness: the amended theorem evaluated at a concrete
7-token SOA answer whose minttl token is unparseable. -/
theorem claim2_witness :
    (constructResource ansSOAbadLast).isErr =
      (Atoi (tok (goSplit ansSOAbadLast.data) 6)).2.isSome :=
  claim2_soa_error_iff_last_token ansSOAbadLast rfl (by decide)

/-! Claim C3. -/

/-- A client return address. -/
def cliAddr : String := "127.0.0.1:40000"

/-- A three-byte datagram. -/
def threeBytes : List Nat := [1, 2, 3]

/-- Claim C3 counterexample: a 3-byte datagram produces a job whose
buffer is the whole 1024-byte read buffer, not the 3 bytes read, so
the job buffer length does not equal n. -/
theorem claim3_counterexample :
    (listenerJob cliAddr threeBytes).Data ≠ threeBytes ∧
    (listenerJob cliAddr threeBytes).Data.length = 1024 := by
  constructor
  · intro h
    have hlen := congrArg List.length h
    simp only [listenerJob, threeBytes, List.length_append, List.length_replicate,
      List.length_cons, List.length_nil] at hlen
    omega
  · simp only [listenerJob, threeBytes, List.length_append, List.length_replicate,
      List.length_cons, List.length_nil]

/-- Claim C3 as amended: the enqueued job carries the client address
together with the whole 1024-byte buffer variable: its first n bytes
are the datagram read, the remainder is the zero fill of make, and
its length is always 1024 rather than n. -/
theorem claim3_listener_full_buffer (addr : String) (d : List Nat) (h : d.length ≤ 1024) :
    (listenerJob addr d).Addr = addr ∧
    (listenerJob addr d).Data.length = 1024 ∧
    (listenerJob addr d).Data.take d.length = d := by
  refine ⟨rfl, ?_, ?_⟩
  · simp only [listenerJob, List.length_append, List.length_replicate]
    omega
  · simp only [listenerJob, List.take_left]

/-- Claim C3 witness: the amended theorem at the concrete 3-byte
datagram. -/
theorem claim3_witness :
    (listenerJob cliAddr threeBytes).Addr = cliAddr ∧
    (listenerJob cliAddr threeBytes).Data.length = 1024 ∧
    (listenerJob cliAddr threeBytes).Data.take threeBytes.length = threeBytes :=
  claim3_listener_full_buffer cliAddr threeBytes (by decide)

/-! Claim C4. -/

/-- DoH response map holding only the answer for a.example. -/
def rmA : ResponseMap := { rmEmpty with Answer := some [ansA] }

/-- DoH response map holding only the answer for b.example. -/
def rmB : ResponseMap := { rmEmpty with Answer := some [ansB] }

/-- DoH oracle answering each question with its own record. -/
def doh4 : Server → Question → Except String ResponseMap := fun _ q =>
  if q.Name = "a.example." then .ok rmA else .ok rmB

/-- The two-question query with id 171. -/
def query4 : Msg := { zeroMsg with Id := 171, Question := [qA, qB] }

/-- The message Resolve produces for query4: only the second
question's record remains in the Answer section. -/
def msg4 : Msg :=
  { Id := 171, Response := true, Opcode := 0, RecursionDesired := true
    RecursionAvailable := true, Truncated := false, Rcode := 0
    Compress := true, Question := [qA], Answer := [rrB], Ns := [], Extra := [] }

/-- Claim C4 counterexample: a two-question DoH query in which
question 1 yields record rrA and question 2 yields rrB: Client.Resolve
returns a message whose Answer section is [rrB] only — the record of
the first question is absent, refuting the claim that the answers of
every question are combined into the returned response. -/
theorem claim4_counterexample :
    Resolve doh4 exchNone shard443 query4 [] = .ret (some msg4) none ∧
    rrA ∉ msg4.Answer := by decide

/-- Claim C4 as amended: on the DoH path each question iteration
overwrites the answer sections of the single reply message, so for a
two-question query every message Resolve produces carries exactly the
Answer section reconstructed from the LAST question's DoH response,
not the records of every question. -/
theorem claim4_last_question_wins (doh : Server → Question → Except String ResponseMap)
    (exchange : Msg → Option Msg × Option String) (shard : Question → Server)
    (resolvers : List Server) (queryM : Msg) (q1 q2 : Question) (rm2 : ResponseMap)
    (hQ : queryM.Question = [q1, q2])
    (h1 : (pick shard resolvers q1).Port = 443)
    (h2 : (pick shard resolvers q2).Port = 443)
    (hd2 : doh (pick shard resolvers q2) q2 = .ok rm2) :
    ∀ resp e, Resolve doh exchange shard queryM resolvers = .ret (some resp) e →
      sectionRRs rm2.Answer = .ok resp.Answer := by
  intro resp e hr
  unfold Resolve at hr
  split at hr
  · exact absurd hr (by simp)
  · rw [hQ] at hr
    unfold resolveLoop at hr
    rw [if_pos h1] at hr
    split at hr
    next e0 hd1 => exact absurd hr (by simp)
    next rm1 hd1 =>
      split at hr
      next e0 hcrm1 => exact absurd hr (by simp)
      next hcrm1 => exact absurd hr (by simp)
      next m1 hcrm1 =>
        unfold resolveLoop at hr
        rw [if_pos h2] at hr
        split at hr
        next e0 hd2b =>
          rw [hd2] at hd2b
          exact absurd hd2b (by simp)
        next rm2b hd2b =>
          rw [hd2] at hd2b
          injection hd2b with hrm
          subst hrm
          split at hr
          next e0 hcrm2 => exact absurd hr (by simp)
          next hcrm2 => exact absurd hr (by simp)
          next m2 hcrm2 =>
            unfold resolveLoop at hr
            injection hr with hinj he
            injection hinj with hinj
            rw [← hinj]
            exact crm_answer _ _ _ hcrm2

/-- Claim C4 witness: the amended theorem at the concrete two-question
query, showing the produced Answer section is the one built from the
second question's map. -/
theorem claim4_witness : sectionRRs rmB.Answer = .ok msg4.Answer :=
  claim4_last_question_wins doh4 exchNone shard443 [] query4 qA qB rmB rfl rfl rfl
    rfl msg4 none (by decide)

/-! Claim C5. -/

/-- Claim C5: id echo — every message produced by Client.Resolve or by
Server.Resolve carries the transaction id of the originating query,
for queries with at least one question, resolvers on port 443 or 53,
request types REQ_DNS or REQ_DOH, and a DNS exchange that echoes the
query id (as miekg Exchange enforces by rejecting mismatched ids). -/
theorem claim5_id_echo (doh : Server → Question → Except String ResponseMap)
    (exchange : Msg → Option Msg × Option String) (shard : Question → Server)
    (resolvers : List Server) (server : Server) (queryM : Msg) (reqType : Nat)
    (hq : queryM.Question ≠ [])
    (hports : ∀ q ∈ queryM.Question,
      (pick shard resolvers q).Port = 443 ∨ (pick shard resolvers q).Port = 53)
    (hex : ∀ r e, exchange queryM = (some r, e) → r.Id = queryM.Id)
    (hreq : reqType = REQ_DNS ∨ reqType = REQ_DOH) :
    (∀ resp e, Resolve doh exchange shard queryM resolvers = .ret (some resp) e →
      resp.Id = queryM.Id) ∧
    (∀ resp e, ServerResolve doh exchange server queryM reqType = .ret (some resp) e →
      resp.Id = queryM.Id) := by
  constructor
  · intro resp e hr
    unfold Resolve at hr
    split at hr
    · exact absurd hr (by simp)
    · exact resolveLoop_id doh exchange shard resolvers queryM hex queryM.Question zeroMsg
        hports (Or.inr hq) resp e hr
  · intro resp e hr
    unfold ServerResolve at hr
    split at hr
    · exact serverResolveLoop_id doh server queryM queryM.Question zeroMsg (Or.inr hq)
        resp e hr
    · split at hr
      · split at hr
        next hdns => exact absurd hr (by simp)
        next resp0 errv hdns =>
          split at hr
          · exact absurd hr (by simp)
          · injection hr with hinj he
            rw [hinj] at hdns
            exact hex resp none (dns_some exchange server queryM resp none hdns)
      · rename_i hnDOH hnDNS
        rcases hreq with h | h
        · exact absurd h hnDNS
        · exact absurd h hnDOH

/-- One-question query with id 43981. -/
def query5 : Msg := { zeroMsg with Id := 43981, Question := [qA] }

/-- DoH oracle returning an empty map. -/
def doh5 : Server → Question → Except String ResponseMap := fun _ _ => .ok rmEmpty

/-- The message Resolve produces for query5 against doh5. -/
def msg5 : Msg :=
  { Id := 43981, Response := true, Opcode := 0, RecursionDesired := true
    RecursionAvailable := true, Truncated := false, Rcode := 0
    Compress := true, Question := [qA], Answer := [], Ns := [], Extra := [] }

/-- Claim C5 witness: the id-echo theorem at a concrete one-question
query resolved over the DoH path. -/
theorem claim5_witness : msg5.Id = query5.Id :=
  (claim5_id_echo doh5 exchNone shard443 [] srv443 query5 REQ_DOH
    (by decide) (by decide) (by intro r e h; simp [exchNone] at h) (Or.inr rfl)).1
    msg5 none (by decide)

/-! Claim C6. -/

/-- Claim C6: for every DoH JSON response map, the constructed response
has Truncated equal to the TC value when the key is present and false
otherwise, RecursionDesired equal to RD when present and true
otherwise, and RecursionAvailable equal to RA when present and true
otherwise (Option.getD states both halves at once). -/
theorem claim6_flag_defaults (m : Msg) (rm : ResponseMap) (m2 : Msg)
    (hc : constructResponseMessage m rm = .ok m2) :
    m2.Truncated = rm.TC.getD false ∧ m2.RecursionDesired = rm.RD.getD true ∧
      m2.RecursionAvailable = rm.RA.getD true := by
  obtain ⟨ans, au, ad, _, _, _, h2⟩ := crm_shape m rm m2 hc
  subst h2
  exact ⟨rfl, rfl, rfl⟩

/-- A response map with TC present (true) and RD, RA absent. -/
def rmFlags : ResponseMap := { rmEmpty with TC := some true }

/-- The message built from rmFlags over the zero message. -/
def msg6 : Msg :=
  { zeroMsg with Truncated := true, RecursionDesired := true, RecursionAvailable := true }

/-- Claim C6 witness: the flag theorem at a concrete map with TC
present and RD, RA absent. -/
theorem claim6_witness :
    msg6.Truncated = rmFlags.TC.getD false ∧ msg6.RecursionDesired = rmFlags.RD.getD true ∧
      msg6.RecursionAvailable = rmFlags.RA.getD true :=
  claim6_flag_defaults zeroMsg rmFlags msg6 (by decide)

/-! Claim C7. -/

/-- A malformed SOA answer (unparseable minttl token). -/
def ansBadSOA : Answer := { name := "e.", type := 6, TTL := 1, data := "a. b. 1 2 3 4 X" }

/-- An answer with unsupported numeric type 99. -/
def ans99 : Answer := { name := "e.", type := 99, TTL := 1, data := "z" }

/-- A response whose Answer array holds the malformed SOA before the
type-99 answer. -/
def rm7 : ResponseMap := { rmEmpty with Answer := some [ansBadSOA, ans99] }

/-- Claim C7 counterexample: a response containing an unsupported
type-99 answer preceded by a malformed SOA answer: reconstruction
fails with the Atoi syntax error of the earlier answer, not with the
UnsupportedRRType error, refuting the claim that a response containing
an unsupported-type answer always fails with UnsupportedRRType. -/
theorem claim7_counterexample :
    constructResponseMessage zeroMsg rm7 = .err errSyntax ∧ errSyntax ≠ errUnsupported := by
  decide

/-- Claim C7 as amended: a DoH response containing at least one
answer of unsupported numeric type fails reconstruction and yields
zero resource records; the reported error is UnsupportedRRType
provided every supported-type answer of the response constructs
successfully (otherwise the earlier answer's failure is reported,
since sections abort at the first failing answer). -/
theorem claim7_unsupported_aborts (m : Msg) (rm : ResponseMap)
    (hsome : ∃ a ∈ rmAnswers rm, supported a.type = false)
    (hok : ∀ a ∈ rmAnswers rm, supported a.type = true → (constructResource a).isOk = true) :
    constructResponseMessage m rm = .err errUnsupported := by
  have hokA : ∀ a ∈ rm.Answer.getD [], supported a.type = true →
      (constructResource a).isOk = true :=
    fun a ha h => hok a (by simp [rmAnswers, ha]) h
  have hokU : ∀ a ∈ rm.Authority.getD [], supported a.type = true →
      (constructResource a).isOk = true :=
    fun a ha h => hok a (by simp [rmAnswers, ha]) h
  have hokD : ∀ a ∈ rm.Additional.getD [], supported a.type = true →
      (constructResource a).isOk = true :=
    fun a ha h => hok a (by simp [rmAnswers, ha]) h
  unfold constructResponseMessage
  by_cases hA : ∃ a ∈ rm.Answer.getD [], supported a.type = false
  · rw [sectionRRs_unsupported rm.Answer hA hokA]
  · have hallA : ∀ a ∈ rm.Answer.getD [], (constructResource a).isOk = true := by
      intro a ha
      by_cases hs : supported a.type = true
      · exact hokA a ha hs
      · exact absurd ⟨a, ha, by simpa using hs⟩ hA
    obtain ⟨ansL, hansL⟩ := sectionRRs_all_ok rm.Answer hallA
    rw [hansL]
    by_cases hU : ∃ a ∈ rm.Authority.getD [], supported a.type = false
    · rw [sectionRRs_unsupported rm.Authority hU hokU]
    · have hallU : ∀ a ∈ rm.Authority.getD [], (constructResource a).isOk = true := by
        intro a ha
        by_cases hs : supported a.type = true
        · exact hokU a ha hs
        · exact absurd ⟨a, ha, by simpa using hs⟩ hU
      obtain ⟨auL, hauL⟩ := sectionRRs_all_ok rm.Authority hallU
      rw [hauL]
      have hD : ∃ a ∈ rm.Additional.getD [], supported a.type = false := by
        obtain ⟨a, hmem, hsup⟩ := hsome
        simp only [rmAnswers, List.mem_append] at hmem
        rcases hmem with (h | h) | h
        · exact absurd ⟨a, h, hsup⟩ hA
        · exact absurd ⟨a, h, hsup⟩ hU
        · exact ⟨a, h, hsup⟩
      rw [sectionRRs_unsupported rm.Additional hD hokD]

/-- A response whose sole answer has unsupported type 99. -/
def rm7w : ResponseMap := { rmEmpty with Answer := some [ans99] }

/-- Claim C7 witness: the amended theorem at a concrete response with
a single unsupported-type answer. -/
theorem claim7_witness : constructResponseMessage zeroMsg rm7w = .err errUnsupported :=
  claim7_unsupported_aborts zeroMsg rm7w (by decide) (by decide)

/-! Claim C8. -/

/-- Claim C8: for every supported-type JSON answer that
constructResource accepts, exactly one record is emitted, and its
header has class IN, a name forced to FQDN (thus ending in a dot),
and type and ttl equal to the JSON numerics coerced to u16 and u32. -/
theorem claim8_rr_shape (a : Answer) (rr : RR)
    (_hsup : supported a.type = true) (hok : constructResource a = .ok rr) :
    rr.hdr = { Name := Fqdn a.name, Rrtype := u16 a.type, Class := classINET,
               Ttl := u32 a.TTL } ∧
    endsInDot rr.hdr.Name = true := by
  have h := constructResource_hdr a rr hok
  refine ⟨h, ?_⟩
  rw [h]
  exact fqdn_endsInDot a.name

/-- Claim C8 witness: the shape theorem at the concrete A answer for
a.example. -/
theorem claim8_witness :
    rrA.hdr = { Name := Fqdn ansA.name, Rrtype := u16 ansA.type, Class := classINET,
                Ttl := u32 ansA.TTL } ∧
      endsInDot rrA.hdr.Name = true :=
  claim8_rr_shape ansA rrA (by decide) (by decide)

/-! Claim C9. -/

/-- Claim C9: type 16 (TXT) is in the supported set of
constructResource in src/utils.go: every type-16 answer whose data
unquotes successfully yields exactly one TXT record whose text is the
single-element list holding the unquoted value, instead of an
UnsupportedRRType failure.  (The stale duplicate of constructResource
kept in src/client.go lacks this arm.) -/
theorem claim9_txt_supported (a : Answer) (s : String)
    (h16 : a.type = 16) (hu : Unquote a.data = some s) :
    constructResource a = .ok (.TXT (mkHeader a) [s]) := by
  unfold constructResource
  rw [h16]
  simp [txtCase, hu]

/-- A TXT answer whose data is a JSON-quoted string. -/
def ansTXT : Answer :=
  { name := "t.example", type := 16, TTL := 30, data := "\"hello world\"" }

/-- The unquoted TXT payload. -/
def strHello : String := "hello world"

/-- Claim C9 witness: the TXT theorem at a concrete quoted payload. -/
theorem claim9_witness : constructResource ansTXT = .ok (.TXT (mkHeader ansTXT) [strHello]) :=
  claim9_txt_supported ansTXT strHello rfl (by decide)

/-! Claim C10. -/

/-- Claim C10: for every type-1 (A) and type-28 (AAAA) answer,
constructResource returns a record and no error regardless of the data
string: the record carries the raw net.ParseIP result, so when the
data does not parse as an IP the record holds the nil address (none)
instead of the construction failing with MalformedAnswer. -/
theorem claim10_ip_unchecked (a : Answer) :
    (a.type = 1 → constructResource a = .ok (.A (mkHeader a) (ParseIP a.data))) ∧
    (a.type = 28 → constructResource a = .ok (.AAAA (mkHeader a) (ParseIP a.data))) := by
  constructor
  · intro h1
    unfold constructResource
    rw [h1]
    simp
  · intro h28
    unfold constructResource
    rw [h28]
    simp

/-- An A answer whose data is not an IP address. -/
def ansBadIP : Answer := { name := "x.example.", type := 1, TTL := 5, data := "not-an-ip" }

/-- Claim C10 witness: the theorem at a concrete A answer with
unparseable data — the record is produced with a nil address. -/
theorem claim10_witness : constructResource ansBadIP = .ok (.A (mkHeader ansBadIP) none) := by
  have h := (claim10_ip_unchecked ansBadIP).1 rfl
  rw [h]
  have hp : ParseIP ansBadIP.data = none := by decide
  rw [hp]

end DoHProxy


